import Mathlib

/-!
Verification of the zimi/qmi power-strip driver
(src/miio/integrations/zimi/powerstrip/powerstrip.py).

The driver is embedded shallowly:

* Raw device values (strings, numbers, null) become the inductive `RawValue`;
  device numbers are modelled as rationals, since the driver performs no
  floating-point arithmetic beyond one exact division by 100.
* The status container `PowerStripStatus` holds a Python dict.  `status()`
  wraps the fetched values into `defaultdict(lambda: None, zip(props, vals))`,
  so the dict model `PyDict` carries an optional default returned by
  `__getitem__` on a missing key; a plain dict has no default and raises
  `KeyError`.  Python exceptions are modelled with `Except PyError`.
* `in`-checks on a `defaultdict` consult only the actually-present keys,
  matching Python semantics (`__contains__` never invokes the default).
* Command methods are modelled as functions of an abstract transport
  `tr : String → List RawValue → Except PyError RawValue`; each returns the
  list of transport calls it issued together with its own result, so that
  "exactly one call" and "no call before validation failure" are provable.
-/

namespace PowerStripSpec

/-- A raw value as it appears in a device response: a string, a number
(Python int or float, modelled as an exact rational), or Python `None`. -/
inductive RawValue : Type where
  | vstr (s : String)
  | vnum (q : ℚ)
  | vnull
  deriving DecidableEq, Repr

/-- The Python exceptions the embedded code can raise. -/
inductive PyError : Type where
  | keyError (key : String)
  | valueError
  | typeError
  deriving DecidableEq, Repr

instance instDecEqExcept {ε α : Type} [DecidableEq ε] [DecidableEq α] :
    DecidableEq (Except ε α) := fun x y =>
  match x, y with
  | .ok a, .ok b =>
    if h : a = b then isTrue (by rw [h]) else isFalse (by simp [h])
  | .error e, .error f =>
    if h : e = f then isTrue (by rw [h]) else isFalse (by simp [h])
  | .ok _, .error _ => isFalse (by simp)
  | .error _, .ok _ => isFalse (by simp)

def MODEL_POWER_STRIP_V1 : String := "qmi.powerstrip.v1"

def MODEL_POWER_STRIP_V2 : String := "zimi.powerstrip.v2"

/-- Property list of `qmi.powerstrip.v1` in `AVAILABLE_PROPERTIES`. -/
def PROPERTIES_V1 : List String :=
  ["power", "temperature", "current", "mode", "power_consume_rate",
   "voltage", "power_factor", "elec_leakage"]

/-- Property list of `zimi.powerstrip.v2` in `AVAILABLE_PROPERTIES`. -/
def PROPERTIES_V2 : List String :=
  ["power", "temperature", "current", "mode", "power_consume_rate",
   "wifi_led", "power_price"]

/-- The `AVAILABLE_PROPERTIES` table, model identifier to property list. -/
def AVAILABLE_PROPERTIES : List (String × List String) :=
  [(MODEL_POWER_STRIP_V1, PROPERTIES_V1),
   (MODEL_POWER_STRIP_V2, PROPERTIES_V2)]

/-- First-match association-list lookup (Python dict lookup; the dicts built
by this driver never have duplicate keys). -/
def lookupAssoc {α : Type} : List (String × α) → String → Option α
  | [], _ => none
  | (k', v) :: rest, k => if k = k' then some v else lookupAssoc rest k

/-- A Python dict as used by `PowerStripStatus`: the present key/value pairs
plus the value produced by a `defaultdict` default factory, if any
(`status()` uses `defaultdict(lambda: None, ...)`, so `dflt = some vnull`;
a directly supplied plain dict has `dflt = none`). -/
structure PyDict : Type where
  entries : List (String × RawValue)
  dflt : Option RawValue
  deriving DecidableEq, Repr

/-- Value bound to `k` among the actually-present keys. -/
def PyDict.find (d : PyDict) (k : String) : Option RawValue :=
  lookupAssoc d.entries k

/-- Python `k in d`: consults only present keys, never the default. -/
def PyDict.containsKey (d : PyDict) (k : String) : Bool :=
  (d.find k).isSome

/-- Python `d[k]`: the bound value, else the `defaultdict` default,
else `KeyError`. -/
def PyDict.getItem (d : PyDict) (k : String) : Except PyError RawValue :=
  match d.find k with
  | some v => .ok v
  | none =>
    match d.dflt with
    | some v => .ok v
    | none => .error (.keyError k)

/-- The `PowerMode` enum: `Eco = "green"`, `Normal = "normal"`. -/
inductive PowerMode : Type where
  | Eco
  | Normal
  deriving DecidableEq, Repr

/-- `mode.value`: the wire string backing each enum member. -/
def PowerMode.value : PowerMode → String
  | .Eco => "green"
  | .Normal => "normal"

/-- The enum call `PowerMode(x)`: lookup by value, `ValueError` when no
member has value `x`. -/
def PowerMode.ofValue (v : RawValue) : Except PyError PowerMode :=
  if v = .vstr "green" then .ok .Eco
  else if v = .vstr "normal" then .ok .Normal
  else .error .valueError

namespace PowerStripStatus

/-- `power`: `return self.data["power"]`. -/
def power (d : PyDict) : Except PyError RawValue :=
  d.getItem "power"

/-- `is_on`: `return self.power == "on"`. -/
def is_on (d : PyDict) : Except PyError Bool := do
  let p ← power d
  pure (p = RawValue.vstr "on")

/-- `temperature`: `return self.data["temperature"]`. -/
def temperature (d : PyDict) : Except PyError RawValue :=
  d.getItem "temperature"

/-- `current`: the value if `self.data["current"] is not None`, else `None`. -/
def current (d : PyDict) : Except PyError (Option RawValue) := do
  let v ← d.getItem "current"
  if v ≠ RawValue.vnull then pure (some v) else pure none

/-- `load_power`: the value if `self.data["power_consume_rate"] is not None`,
else `None`. -/
def load_power (d : PyDict) : Except PyError (Option RawValue) := do
  let v ← d.getItem "power_consume_rate"
  if v ≠ RawValue.vnull then pure (some v) else pure none

/-- `mode`: `PowerMode(self.data["mode"])` if non-None, else `None`. -/
def mode (d : PyDict) : Except PyError (Option PowerMode) := do
  let v ← d.getItem "mode"
  if v ≠ RawValue.vnull then
    let m ← PowerMode.ofValue v
    pure (some m)
  else
    pure none

/-- `led`: `self.data["wifi_led"] == "on"` when the key is present and its
value is not None, else `None`.  (The `in`-check plus non-None check means
a present binding is read, so this never raises.) -/
def led (d : PyDict) : Option Bool :=
  match d.find "wifi_led" with
  | some v => if v ≠ RawValue.vnull then some (decide (v = RawValue.vstr "on")) else none
  | none => none

/-- Deprecated `wifi_led` accessor: `return self.led`. -/
def wifi_led (d : PyDict) : Option Bool :=
  led d

/-- `power_price`: the value when `"power_price"` is a present, non-None key,
else `None`. -/
def power_price (d : PyDict) : Option RawValue :=
  match d.find "power_price" with
  | some v => if v ≠ RawValue.vnull then some v else none
  | none => none

/-- `leakage_current`: the value when `"elec_leakage"` is a present,
non-None key, else `None`. -/
def leakage_current (d : PyDict) : Option RawValue :=
  match d.find "elec_leakage" with
  | some v => if v ≠ RawValue.vnull then some v else none
  | none => none

/-- `self.data["voltage"] / 100.0`: exact division for a number, `TypeError`
for a non-numeric operand. -/
def divBy100 : RawValue → Except PyError ℚ
  | .vnum q => .ok (q / 100)
  | _ => .error .typeError

/-- `voltage`: `self.data["voltage"] / 100.0` when `"voltage"` is a present,
non-None key, else `None`. -/
def voltage (d : PyDict) : Except PyError (Option ℚ) :=
  match d.find "voltage" with
  | some v => if v ≠ RawValue.vnull then (divBy100 v).map some else .ok none
  | none => .ok none

/-- `power_factor`: the value when `"power_factor"` is a present, non-None
key, else `None`. -/
def power_factor (d : PyDict) : Option RawValue :=
  match d.find "power_factor" with
  | some v => if v ≠ RawValue.vnull then some v else none
  | none => none

end PowerStripStatus

namespace PowerStrip

/-- `AVAILABLE_PROPERTIES.get(model, AVAILABLE_PROPERTIES[V1])`. -/
def propertiesFor (model : String) : List String :=
  (lookupAssoc AVAILABLE_PROPERTIES model).getD PROPERTIES_V1

/-- `status()`: wrap the fetched values in
`defaultdict(lambda: None, zip(properties, values))`.  The transport call
`get_properties(properties)` is abstracted by passing its result `values`. -/
def status (model : String) (values : List RawValue) : PyDict :=
  { entries := List.zip (propertiesFor model) values
    dflt := some RawValue.vnull }

end PowerStrip

/-- One transport invocation: the method name and argument list passed to
`Device.send`. -/
structure Call : Type where
  method : String
  args : List RawValue
  deriving DecidableEq, Repr

/-- The abstract transport collaborator behind `Device.send`: a response (or
a propagated transport failure) for each method/argument pair. -/
def Transport : Type :=
  String → List RawValue → Except PyError RawValue

namespace PowerStrip

/-- `self.send(method, args)`: records the single transport call and yields
the transport's response. -/
def send (tr : Transport) (method : String) (args : List RawValue) :
    List Call × Except PyError RawValue :=
  ([⟨method, args⟩], tr method args)

/-- `on()`: `return self.send("set_power", ["on"])`. -/
def «on» (tr : Transport) : List Call × Except PyError RawValue :=
  send tr "set_power" [.vstr "on"]

/-- `off()`: `return self.send("set_power", ["off"])`. -/
def off (tr : Transport) : List Call × Except PyError RawValue :=
  send tr "set_power" [.vstr "off"]

/-- `set_power(power)`: `on()` when true, else `off()`. -/
def set_power (tr : Transport) (power : Bool) : List Call × Except PyError RawValue :=
  if power then «on» tr else off tr

/-- `set_power_mode(mode)`: `return self.send("set_power_mode", [mode.value])`. -/
def set_power_mode (tr : Transport) (mode : PowerMode) :
    List Call × Except PyError RawValue :=
  send tr "set_power_mode" [.vstr mode.value]

/-- `set_led(led)`: `send("set_wifi_led", ["on"])` when true, else with
`["off"]`; returns the transport response. -/
def set_led (tr : Transport) (led : Bool) : List Call × Except PyError RawValue :=
  if led then send tr "set_wifi_led" [.vstr "on"]
  else send tr "set_wifi_led" [.vstr "off"]

/-- Deprecated `set_wifi_led(led)`: `self.set_led(led)` with the result
discarded, so the method itself returns `None` (unless `set_led` raised, in
which case the exception propagates). -/
def set_wifi_led (tr : Transport) (led : Bool) : List Call × Except PyError RawValue :=
  let r := set_led tr led
  (r.1, r.2.map fun _ => RawValue.vnull)

/-- `set_power_price(price)`: `ValueError` when `price < 0 or price > 999`,
raised before any transport call; otherwise
`return self.send("set_power_price", [price])`. -/
def set_power_price (tr : Transport) (price : ℤ) :
    List Call × Except PyError RawValue :=
  if price < 0 ∨ price > 999 then ([], .error .valueError)
  else send tr "set_power_price" [.vnum (price : ℚ)]

/-- `set_realtime_power(power)`: `send("set_rt_power", [1])` when true, else
with `[0]`. -/
def set_realtime_power (tr : Transport) (power : Bool) :
    List Call × Except PyError RawValue :=
  if power then send tr "set_rt_power" [.vnum 1]
  else send tr "set_rt_power" [.vnum 0]

end PowerStrip

/-- A transport stub that accepts every request with a `None` response. -/
def trOk : Transport := fun _ _ => .ok RawValue.vnull

/-- A transport stub that fails every request. -/
def trFail : Transport := fun _ _ => .error .typeError

/-- The key is either missing from the mapping or bound to Python `None`:
the two situations every optional accessor must treat as absent. -/
def missingOrNull (d : PyDict) (k : String) : Prop :=
  d.find k = none ∨ d.find k = some RawValue.vnull

/-- The absence view of a raw value: `None` becomes absent, anything else is
kept.  Used to state the round-trip property. -/
def asOpt : RawValue → Option RawValue
  | .vnull => none
  | v => some v

/-- The declared conversion for the mode field: `None` is absent, anything
else goes through the `PowerMode` enum lookup. -/
def decodeMode : RawValue → Except PyError (Option PowerMode)
  | .vnull => .ok none
  | v => (PowerMode.ofValue v).map some

/-- The declared conversion for the voltage field: `None` is absent,
anything else is divided by 100. -/
def decodeVolt : RawValue → Except PyError (Option ℚ)
  | .vnull => .ok none
  | v => (PowerStripStatus.divBy100 v).map some

/-- Positional access into a raw-value sequence (total, with a dummy
default; only applied within bounds). -/
def nth (values : List RawValue) (i : ℕ) : RawValue :=
  values.getD i RawValue.vnull

end PowerStripSpec

namespace PowerStripSpec

/-- The raw V2 response of the C1 scenario:
`["on", 48.7, 0.05, None, 4.09, "on", 49]`. -/
def rawV2example : List RawValue :=
  [.vstr "on", .vnum (487/10), .vnum (5/100), .vnull, .vnum (409/100),
   .vstr "on", .vnum 49]

/-- C1: for model `zimi.powerstrip.v2` with raw values
`["on", 48.7, 0.05, None, 4.09, "on", 49]` zipped against the V2 property
list, the snapshot built by `status()` has `is_on = true`,
`temperature = 48.7`, `current = 0.05`, `mode` absent, `load_power = 4.09`,
`led = true`, `power_price = 49`, `voltage` absent and `leakage_current`
absent. -/
theorem C1_v2_status_scenario :
    PowerStripStatus.is_on (PowerStrip.status MODEL_POWER_STRIP_V2 rawV2example) = .ok true ∧
    PowerStripStatus.temperature (PowerStrip.status MODEL_POWER_STRIP_V2 rawV2example) =
      .ok (.vnum (487/10)) ∧
    PowerStripStatus.current (PowerStrip.status MODEL_POWER_STRIP_V2 rawV2example) =
      .ok (some (.vnum (5/100))) ∧
    PowerStripStatus.mode (PowerStrip.status MODEL_POWER_STRIP_V2 rawV2example) = .ok none ∧
    PowerStripStatus.load_power (PowerStrip.status MODEL_POWER_STRIP_V2 rawV2example) =
      .ok (some (.vnum (409/100))) ∧
    PowerStripStatus.led (PowerStrip.status MODEL_POWER_STRIP_V2 rawV2example) = some true ∧
    PowerStripStatus.power_price (PowerStrip.status MODEL_POWER_STRIP_V2 rawV2example) =
      some (.vnum 49) ∧
    PowerStripStatus.voltage (PowerStrip.status MODEL_POWER_STRIP_V2 rawV2example) = .ok none ∧
    PowerStripStatus.leakage_current (PowerStrip.status MODEL_POWER_STRIP_V2 rawV2example) =
      none :=
  ⟨rfl, rfl, rfl, rfl, rfl, rfl, rfl, rfl, rfl⟩

/-- The catalog lookup resolves every model to the V1 or the V2 list. -/
theorem propertiesFor_cases (model : String) :
    PowerStrip.propertiesFor model = PROPERTIES_V1 ∨
      PowerStrip.propertiesFor model = PROPERTIES_V2 := by
  by_cases h1 : model = MODEL_POWER_STRIP_V1
  · left
    rw [h1]
    rfl
  · by_cases h2 : model = MODEL_POWER_STRIP_V2
    · right
      rw [h2]
      rfl
    · left
      simp [PowerStrip.propertiesFor, AVAILABLE_PROPERTIES, lookupAssoc, h1, h2]

/-- C5: the property list of each known model is the non-empty,
duplicate-free list recorded for it in `AVAILABLE_PROPERTIES` (in fact the
list resolved for every model whatsoever is non-empty and duplicate-free),
and every unknown model falls back to the V1 list. -/
theorem C5_property_catalog :
    PowerStrip.propertiesFor MODEL_POWER_STRIP_V1 = PROPERTIES_V1 ∧
    PowerStrip.propertiesFor MODEL_POWER_STRIP_V2 = PROPERTIES_V2 ∧
    (∀ model : String,
      (PowerStrip.propertiesFor model).Nodup ∧ PowerStrip.propertiesFor model ≠ []) ∧
    (∀ model : String, model ≠ MODEL_POWER_STRIP_V1 → model ≠ MODEL_POWER_STRIP_V2 →
      PowerStrip.propertiesFor model = PROPERTIES_V1) := by
  refine ⟨rfl, rfl, fun model => ?_, fun model h1 h2 => ?_⟩
  · rcases propertiesFor_cases model with h | h <;> rw [h] <;>
      exact ⟨by decide, by decide⟩
  · simp [PowerStrip.propertiesFor, AVAILABLE_PROPERTIES, lookupAssoc, h1, h2]

/-- Witness for C5 at the unknown model string "some.other.device". -/
theorem C5_property_catalog_witness :
    PowerStrip.propertiesFor "some.other.device" = PROPERTIES_V1 :=
  C5_property_catalog.2.2.2 "some.other.device" (by decide) (by decide)

/-- C4: `set_power_price` issues exactly the single transport call
`send("set_power_price", [price])` for `0 ≤ price ≤ 999`, and for any price
outside that range it raises `ValueError` having issued no transport call. -/
theorem C4_set_power_price_validation (tr : Transport) (price : ℤ) :
    (0 ≤ price → price ≤ 999 →
      PowerStrip.set_power_price tr price =
        ([⟨"set_power_price", [.vnum (price : ℚ)]⟩],
          tr "set_power_price" [.vnum (price : ℚ)])) ∧
    (price < 0 ∨ price > 999 →
      PowerStrip.set_power_price tr price = ([], .error .valueError)) := by
  constructor
  · intro h0 h999
    rw [PowerStrip.set_power_price, if_neg (by omega)]
    rfl
  · intro h
    rw [PowerStrip.set_power_price, if_pos h]

/-- Witness for C4 at both boundaries and both out-of-range neighbours. -/
theorem C4_set_power_price_boundaries :
    PowerStrip.set_power_price trOk 0 =
      ([⟨"set_power_price", [.vnum ((0 : ℤ) : ℚ)]⟩],
        trOk "set_power_price" [.vnum ((0 : ℤ) : ℚ)]) ∧
    PowerStrip.set_power_price trOk 999 =
      ([⟨"set_power_price", [.vnum ((999 : ℤ) : ℚ)]⟩],
        trOk "set_power_price" [.vnum ((999 : ℤ) : ℚ)]) ∧
    PowerStrip.set_power_price trOk (-1) = ([], .error .valueError) ∧
    PowerStrip.set_power_price trOk 1000 = ([], .error .valueError) :=
  ⟨(C4_set_power_price_validation trOk 0).1 (by decide) (by decide),
   (C4_set_power_price_validation trOk 999).1 (by decide) (by decide),
   (C4_set_power_price_validation trOk (-1)).2 (by decide),
   (C4_set_power_price_validation trOk 1000).2 (by decide)⟩

/-- C7: `set_power_mode` issues exactly the single call
`send("set_power_mode", [mode.value])` for each of the two enum members,
whose wire values are "green" for Eco and "normal" for Normal; any other
literal is rejected with `ValueError` by the enum lookup, before dispatch. -/
theorem C7_set_power_mode_dispatch (tr : Transport) :
    (∀ m : PowerMode,
      PowerStrip.set_power_mode tr m =
        ([⟨"set_power_mode", [.vstr m.value]⟩],
          tr "set_power_mode" [.vstr m.value])) ∧
    PowerMode.Eco.value = "green" ∧
    PowerMode.Normal.value = "normal" ∧
    (∀ v : RawValue, v ≠ .vstr "green" → v ≠ .vstr "normal" →
      PowerMode.ofValue v = .error .valueError) := by
  refine ⟨fun m => rfl, rfl, rfl, fun v h1 h2 => ?_⟩
  rw [PowerMode.ofValue, if_neg h1, if_neg h2]

/-- Witness for C7: `set_power_mode(Eco)` sends `["green"]`, and the
non-member literal "eco" is rejected. -/
theorem C7_set_power_mode_eco_witness :
    PowerStrip.set_power_mode trOk .Eco =
      ([⟨"set_power_mode", [.vstr "green"]⟩],
        trOk "set_power_mode" [.vstr "green"]) ∧
    PowerMode.ofValue (.vstr "eco") = .error .valueError :=
  ⟨(C7_set_power_mode_dispatch trOk).1 .Eco,
   (C7_set_power_mode_dispatch trOk).2.2.2 (.vstr "eco") (by decide) (by decide)⟩

/-- C8: the deprecated `wifi_led` accessor returns exactly what `led`
returns, on every snapshot. -/
theorem C8_wifi_led_is_led_alias (d : PyDict) :
    PowerStripStatus.wifi_led d = PowerStripStatus.led d := rfl

/-- C9: for every boolean, `set_wifi_led` issues the very transport calls of
`set_led` (the single call `send("set_wifi_led", ["on"/"off"])`), propagates
exactly the failures of `set_led`, but discards its return value and yields
`None`, whereas `set_led` yields the transport response itself. -/
theorem C9_set_wifi_led_delegates (tr : Transport) (b : Bool) :
    (PowerStrip.set_wifi_led tr b).1 = (PowerStrip.set_led tr b).1 ∧
    (PowerStrip.set_led tr b).1 =
      [⟨"set_wifi_led", [.vstr (if b then "on" else "off")]⟩] ∧
    (PowerStrip.set_led tr b).2 =
      tr "set_wifi_led" [.vstr (if b then "on" else "off")] ∧
    (PowerStrip.set_wifi_led tr b).2 =
      (PowerStrip.set_led tr b).2.map (fun _ => RawValue.vnull) ∧
    (∀ e : PyError,
      ((PowerStrip.set_wifi_led tr b).2 = .error e ↔
        (PowerStrip.set_led tr b).2 = .error e)) ∧
    (∀ v : RawValue, (PowerStrip.set_led tr b).2 = .ok v →
      (PowerStrip.set_wifi_led tr b).2 = .ok RawValue.vnull) := by
  refine ⟨rfl, ?_, ?_, rfl, ?_, ?_⟩
  · cases b <;> rfl
  · cases b <;> rfl
  · intro e
    show (PowerStrip.set_led tr b).2.map (fun _ => RawValue.vnull) = .error e ↔ _
    cases h : (PowerStrip.set_led tr b).2 <;> simp [Except.map]
  · intro v hv
    show (PowerStrip.set_led tr b).2.map (fun _ => RawValue.vnull) =
      .ok RawValue.vnull
    rw [hv]
    rfl

/-- Witness for C9 with an all-accepting transport and `led = true`. -/
theorem C9_set_wifi_led_delegates_witness :
    (PowerStrip.set_wifi_led trOk true).1 = [⟨"set_wifi_led", [.vstr "on"]⟩] ∧
    (PowerStrip.set_wifi_led trOk true).2 = .ok RawValue.vnull := by
  have h := C9_set_wifi_led_delegates trOk true
  exact ⟨h.1.trans h.2.1, h.2.2.2.2.2 RawValue.vnull rfl⟩

/-- `__getitem__` on a `defaultdict(lambda: None, ...)` yields `None` for a
missing key. -/
theorem getItem_default {d : PyDict} {k : String} (h : d.find k = none)
    (hdef : d.dflt = some RawValue.vnull) :
    d.getItem k = .ok RawValue.vnull := by
  simp [PyDict.getItem, h, hdef]

/-- `__getitem__` yields the bound value for a present key. -/
theorem getItem_found {d : PyDict} {k : String} {v : RawValue}
    (h : d.find k = some v) : d.getItem k = .ok v := by
  simp [PyDict.getItem, h]

/-- `__getitem__` on a plain dict raises `KeyError` for a missing key. -/
theorem getItem_plain_missing {entries : List (String × RawValue)} {k : String}
    (h : PyDict.find ⟨entries, none⟩ k = none) :
    PyDict.getItem ⟨entries, none⟩ k = .error (.keyError k) := by
  simp [PyDict.getItem, h]

/-- C2: each optional accessor (led, wifi_led, power_price, leakage_current,
voltage, power_factor, current, load_power, mode) yields the absent result
both when its key is missing from a `status()`-style snapshot (default
`None`) and when the key is present but bound to `None`; the two cases are
indistinguishable since both collapse to the same absent value. -/
theorem C2_optional_accessors_absent (d : PyDict)
    (hdef : d.dflt = some RawValue.vnull) :
    (missingOrNull d "wifi_led" →
      PowerStripStatus.led d = none ∧ PowerStripStatus.wifi_led d = none) ∧
    (missingOrNull d "power_price" → PowerStripStatus.power_price d = none) ∧
    (missingOrNull d "elec_leakage" → PowerStripStatus.leakage_current d = none) ∧
    (missingOrNull d "voltage" → PowerStripStatus.voltage d = .ok none) ∧
    (missingOrNull d "power_factor" → PowerStripStatus.power_factor d = none) ∧
    (missingOrNull d "current" → PowerStripStatus.current d = .ok none) ∧
    (missingOrNull d "power_consume_rate" →
      PowerStripStatus.load_power d = .ok none) ∧
    (missingOrNull d "mode" → PowerStripStatus.mode d = .ok none) := by
  refine ⟨?_, ?_, ?_, ?_, ?_, ?_, ?_, ?_⟩ <;> rintro (h | h)
  · exact ⟨by simp [PowerStripStatus.led, h],
      by simp [PowerStripStatus.wifi_led, PowerStripStatus.led, h]⟩
  · exact ⟨by simp [PowerStripStatus.led, h],
      by simp [PowerStripStatus.wifi_led, PowerStripStatus.led, h]⟩
  · simp [PowerStripStatus.power_price, h]
  · simp [PowerStripStatus.power_price, h]
  · simp [PowerStripStatus.leakage_current, h]
  · simp [PowerStripStatus.leakage_current, h]
  · simp [PowerStripStatus.voltage, h]
  · simp [PowerStripStatus.voltage, h]
  · simp [PowerStripStatus.power_factor, h]
  · simp [PowerStripStatus.power_factor, h]
  · rw [PowerStripStatus.current, getItem_default h hdef]
    rfl
  · rw [PowerStripStatus.current, getItem_found h]
    rfl
  · rw [PowerStripStatus.load_power, getItem_default h hdef]
    rfl
  · rw [PowerStripStatus.load_power, getItem_found h]
    rfl
  · rw [PowerStripStatus.mode, getItem_default h hdef]
    rfl
  · rw [PowerStripStatus.mode, getItem_found h]
    rfl

/-- Witness for C2 on a snapshot-style dict with no keys (missing case) and
one with `current` bound to `None` (present-null case). -/
theorem C2_optional_accessors_absent_witness :
    PowerStripStatus.led ⟨[], some RawValue.vnull⟩ = none ∧
    PowerStripStatus.current ⟨[], some RawValue.vnull⟩ = .ok none ∧
    PowerStripStatus.current ⟨[("current", RawValue.vnull)], some RawValue.vnull⟩ =
      .ok none ∧
    PowerStripStatus.voltage ⟨[], some RawValue.vnull⟩ = .ok none := by
  have h1 := C2_optional_accessors_absent ⟨[], some RawValue.vnull⟩ rfl
  have h2 := C2_optional_accessors_absent
    ⟨[("current", RawValue.vnull)], some RawValue.vnull⟩ rfl
  exact ⟨(h1.1 (Or.inl rfl)).1, h1.2.2.2.2.2.1 (Or.inl rfl),
    h2.2.2.2.2.2.1 (Or.inr rfl), h1.2.2.2.1 (Or.inl rfl)⟩

/-- Keys absent from the zipped property list are absent from the snapshot
mapping. -/
theorem lookupAssoc_zip_not_mem {ps : List String} {vs : List RawValue}
    {k : String} (h : k ∉ ps) : lookupAssoc (List.zip ps vs) k = none := by
  induction ps generalizing vs with
  | nil =>
    rw [List.zip_nil_left]
    rfl
  | cons p ps ih =>
    cases vs with
    | nil =>
      rw [List.zip_nil_right]
      rfl
    | cons v vs =>
      have hne : k ≠ p := fun hk => h (hk ▸ List.mem_cons_self p ps)
      have hmem : k ∉ ps := fun hk => h (List.mem_cons_of_mem p hk)
      rw [List.zip_cons_cons, lookupAssoc, if_neg hne]
      exact ih hmem

/-- C3: on a snapshot built by `status()`, every accessor whose underlying
property is not in the resolved property list returns the absent value and
raises nothing; moreover `__getitem__` on such a snapshot succeeds for every
key whatsoever, so no accessor can fail with a `KeyError`. -/
theorem C3_unsupported_property_reads_absent (model : String)
    (values : List RawValue) :
    ("wifi_led" ∉ PowerStrip.propertiesFor model →
      PowerStripStatus.led (PowerStrip.status model values) = none ∧
      PowerStripStatus.wifi_led (PowerStrip.status model values) = none) ∧
    ("power_price" ∉ PowerStrip.propertiesFor model →
      PowerStripStatus.power_price (PowerStrip.status model values) = none) ∧
    ("voltage" ∉ PowerStrip.propertiesFor model →
      PowerStripStatus.voltage (PowerStrip.status model values) = .ok none) ∧
    ("elec_leakage" ∉ PowerStrip.propertiesFor model →
      PowerStripStatus.leakage_current (PowerStrip.status model values) = none) ∧
    ("power_factor" ∉ PowerStrip.propertiesFor model →
      PowerStripStatus.power_factor (PowerStrip.status model values) = none) ∧
    (∀ k : String, ∃ v : RawValue,
      (PowerStrip.status model values).getItem k = .ok v) := by
  have hfind : ∀ k : String, k ∉ PowerStrip.propertiesFor model →
      (PowerStrip.status model values).find k = none := fun k hk =>
    lookupAssoc_zip_not_mem hk
  refine ⟨fun h => ?_, fun h => ?_, fun h => ?_, fun h => ?_, fun h => ?_,
    fun k => ?_⟩
  · exact ⟨by simp [PowerStripStatus.led, hfind _ h],
      by simp [PowerStripStatus.wifi_led, PowerStripStatus.led, hfind _ h]⟩
  · simp [PowerStripStatus.power_price, hfind _ h]
  · simp [PowerStripStatus.voltage, hfind _ h]
  · simp [PowerStripStatus.leakage_current, hfind _ h]
  · simp [PowerStripStatus.power_factor, hfind _ h]
  · cases hf : (PowerStrip.status model values).find k with
    | some v => exact ⟨v, getItem_found hf⟩
    | none => exact ⟨RawValue.vnull, getItem_default hf rfl⟩

/-- Witness for C3: on the V2 snapshot of the C1 scenario, the V1-only
fields voltage, power_factor and elec_leakage all read as absent. -/
theorem C3_unsupported_property_reads_absent_witness :
    PowerStripStatus.voltage (PowerStrip.status MODEL_POWER_STRIP_V2 rawV2example) =
      .ok none ∧
    PowerStripStatus.power_factor
      (PowerStrip.status MODEL_POWER_STRIP_V2 rawV2example) = none ∧
    PowerStripStatus.leakage_current
      (PowerStrip.status MODEL_POWER_STRIP_V2 rawV2example) = none := by
  have h := C3_unsupported_property_reads_absent MODEL_POWER_STRIP_V2 rawV2example
  exact ⟨h.2.2.1 (by decide), h.2.2.2.2.1 (by decide), h.2.2.2.1 (by decide)⟩

/-- C10: the no-`KeyError` guarantee is specific to `status()`, whose
mapping carries a `None` default; on a `PowerStripStatus` built over a plain
dict, the accessors power, temperature, current, load_power and mode raise
`KeyError` whenever their key is missing, because they index the mapping
unconditionally. -/
theorem C10_plain_dict_key_errors (entries : List (String × RawValue)) :
    (PyDict.find ⟨entries, none⟩ "power" = none →
      PowerStripStatus.power ⟨entries, none⟩ = .error (.keyError "power")) ∧
    (PyDict.find ⟨entries, none⟩ "temperature" = none →
      PowerStripStatus.temperature ⟨entries, none⟩ =
        .error (.keyError "temperature")) ∧
    (PyDict.find ⟨entries, none⟩ "current" = none →
      PowerStripStatus.current ⟨entries, none⟩ = .error (.keyError "current")) ∧
    (PyDict.find ⟨entries, none⟩ "power_consume_rate" = none →
      PowerStripStatus.load_power ⟨entries, none⟩ =
        .error (.keyError "power_consume_rate")) ∧
    (PyDict.find ⟨entries, none⟩ "mode" = none →
      PowerStripStatus.mode ⟨entries, none⟩ = .error (.keyError "mode")) ∧
    (∀ (model : String) (values : List RawValue),
      (PowerStrip.status model values).dflt = some RawValue.vnull) := by
  refine ⟨fun h => ?_, fun h => ?_, fun h => ?_, fun h => ?_, fun h => ?_,
    fun model values => rfl⟩
  · rw [PowerStripStatus.power, getItem_plain_missing h]
  · rw [PowerStripStatus.temperature, getItem_plain_missing h]
  · rw [PowerStripStatus.current, getItem_plain_missing h]
    rfl
  · rw [PowerStripStatus.load_power, getItem_plain_missing h]
    rfl
  · rw [PowerStripStatus.mode, getItem_plain_missing h]
    rfl

/-- Witness for C10 at the empty plain dict. -/
theorem C10_plain_dict_key_errors_witness :
    PowerStripStatus.power ⟨[], none⟩ = .error (.keyError "power") ∧
    PowerStripStatus.mode ⟨[], none⟩ = .error (.keyError "mode") := by
  have h := C10_plain_dict_key_errors []
  exact ⟨h.1 rfl, h.2.2.2.2.1 rfl⟩

/-- Binding an `Except` into `pure ∘ some` is mapping `some` over it. -/
theorem except_bind_pure_some {α : Type} (e : Except PyError α) :
    (e >>= fun m => (pure (some m) : Except PyError (Option α))) = e.map some := by
  cases e <;> rfl

/-- C6: building a snapshot from any model and any raw-value sequence
aligned with that model's property list, each accessor reproduces the raw
value supplied at its property's position (with `None` read as absent),
except for the declared conversions: `is_on` is `power == "on"`, `led` is
`wifi_led == "on"`, `mode` is the `PowerMode` decode of its wire string, and
`voltage` is the raw number divided by 100; fields outside the model's list
read as absent. -/
theorem C6_roundtrip (model : String) (values : List RawValue)
    (hlen : values.length = (PowerStrip.propertiesFor model).length) :
    PowerStripStatus.power (PowerStrip.status model values) = .ok (nth values 0) ∧
    PowerStripStatus.is_on (PowerStrip.status model values) =
      .ok (decide (nth values 0 = .vstr "on")) ∧
    PowerStripStatus.temperature (PowerStrip.status model values) =
      .ok (nth values 1) ∧
    PowerStripStatus.current (PowerStrip.status model values) =
      .ok (asOpt (nth values 2)) ∧
    PowerStripStatus.mode (PowerStrip.status model values) =
      decodeMode (nth values 3) ∧
    PowerStripStatus.load_power (PowerStrip.status model values) =
      .ok (asOpt (nth values 4)) ∧
    (PowerStrip.propertiesFor model = PROPERTIES_V2 →
      PowerStripStatus.led (PowerStrip.status model values) =
        (asOpt (nth values 5)).map (fun v => decide (v = RawValue.vstr "on")) ∧
      PowerStripStatus.power_price (PowerStrip.status model values) =
        asOpt (nth values 6) ∧
      PowerStripStatus.voltage (PowerStrip.status model values) = .ok none ∧
      PowerStripStatus.power_factor (PowerStrip.status model values) = none ∧
      PowerStripStatus.leakage_current (PowerStrip.status model values) = none) ∧
    (PowerStrip.propertiesFor model = PROPERTIES_V1 →
      PowerStripStatus.voltage (PowerStrip.status model values) =
        decodeVolt (nth values 5) ∧
      PowerStripStatus.power_factor (PowerStrip.status model values) =
        asOpt (nth values 6) ∧
      PowerStripStatus.leakage_current (PowerStrip.status model values) =
        asOpt (nth values 7) ∧
      PowerStripStatus.led (PowerStrip.status model values) = none ∧
      PowerStripStatus.power_price (PowerStrip.status model values) = none) := by
  rcases propertiesFor_cases model with hp | hp
  · rw [hp] at hlen
    simp only [PROPERTIES_V1, List.length_cons, List.length_nil] at hlen
    rcases values with _ | ⟨v0, values⟩
    · simp at hlen
    rcases values with _ | ⟨v1, values⟩
    · simp at hlen
    rcases values with _ | ⟨v2, values⟩
    · simp at hlen
    rcases values with _ | ⟨v3, values⟩
    · simp at hlen
    rcases values with _ | ⟨v4, values⟩
    · simp at hlen
    rcases values with _ | ⟨v5, values⟩
    · simp at hlen
    rcases values with _ | ⟨v6, values⟩
    · simp at hlen
    rcases values with _ | ⟨v7, values⟩
    · simp at hlen
    rcases values with _ | ⟨v8, values⟩
    swap
    · simp at hlen
    have hst : PowerStrip.status model [v0, v1, v2, v3, v4, v5, v6, v7] =
        ⟨[("power", v0), ("temperature", v1), ("current", v2), ("mode", v3),
          ("power_consume_rate", v4), ("voltage", v5), ("power_factor", v6),
          ("elec_leakage", v7)], some RawValue.vnull⟩ := by
      rw [PowerStrip.status, hp]
      rfl
    refine ⟨?_, ?_, ?_, ?_, ?_, ?_, fun h2 => ?_, fun _ => ?_⟩
    · rw [hst]
      rfl
    · rw [hst]
      rfl
    · rw [hst]
      rfl
    · rw [hst]
      cases v2 <;> rfl
    · rw [hst]
      cases v3 with
      | vnull => rfl
      | vstr s => exact except_bind_pure_some (PowerMode.ofValue (RawValue.vstr s))
      | vnum q => exact except_bind_pure_some (PowerMode.ofValue (RawValue.vnum q))
    · rw [hst]
      cases v4 <;> rfl
    · rw [hp] at h2
      exact absurd h2 (by decide)
    · rw [hst]
      refine ⟨?_, ?_, ?_, rfl, rfl⟩
      · cases v5 <;> rfl
      · cases v6 <;> rfl
      · cases v7 <;> rfl
  · rw [hp] at hlen
    simp only [PROPERTIES_V2, List.length_cons, List.length_nil] at hlen
    rcases values with _ | ⟨v0, values⟩
    · simp at hlen
    rcases values with _ | ⟨v1, values⟩
    · simp at hlen
    rcases values with _ | ⟨v2, values⟩
    · simp at hlen
    rcases values with _ | ⟨v3, values⟩
    · simp at hlen
    rcases values with _ | ⟨v4, values⟩
    · simp at hlen
    rcases values with _ | ⟨v5, values⟩
    · simp at hlen
    rcases values with _ | ⟨v6, values⟩
    · simp at hlen
    rcases values with _ | ⟨v7, values⟩
    swap
    · simp at hlen
    have hst : PowerStrip.status model [v0, v1, v2, v3, v4, v5, v6] =
        ⟨[("power", v0), ("temperature", v1), ("current", v2), ("mode", v3),
          ("power_consume_rate", v4), ("wifi_led", v5), ("power_price", v6)],
          some RawValue.vnull⟩ := by
      rw [PowerStrip.status, hp]
      rfl
    refine ⟨?_, ?_, ?_, ?_, ?_, ?_, fun _ => ?_, fun h1 => ?_⟩
    · rw [hst]
      rfl
    · rw [hst]
      rfl
    · rw [hst]
      rfl
    · rw [hst]
      cases v2 <;> rfl
    · rw [hst]
      cases v3 with
      | vnull => rfl
      | vstr s => exact except_bind_pure_some (PowerMode.ofValue (RawValue.vstr s))
      | vnum q => exact except_bind_pure_some (PowerMode.ofValue (RawValue.vnum q))
    · rw [hst]
      cases v4 <;> rfl
    · rw [hst]
      refine ⟨?_, ?_, rfl, rfl, rfl⟩
      · cases v5 <;> rfl
      · cases v6 <;> rfl
    · rw [hp] at h1
      exact absurd h1 (by decide)

/-- Witness for C6 on the V2 scenario input of C1. -/
theorem C6_roundtrip_witness :
    PowerStripStatus.power (PowerStrip.status MODEL_POWER_STRIP_V2 rawV2example) =
      .ok (nth rawV2example 0) ∧
    PowerStripStatus.led (PowerStrip.status MODEL_POWER_STRIP_V2 rawV2example) =
      (asOpt (nth rawV2example 5)).map (fun v => decide (v = RawValue.vstr "on")) := by
  have h := C6_roundtrip MODEL_POWER_STRIP_V2 rawV2example (by decide)
  exact ⟨h.1, (h.2.2.2.2.2.2.1 (by rfl)).1⟩

end PowerStripSpec
